import Mathlib

set_option maxRecDepth 100000

/-!
Shallow embedding of the `openpid-embedded-hal` Rust code generator
(`src/lib.rs`): the schema data model consumed from the `openpid` crate,
and the two compilation functions `codegen_out_segment` and
`codegen_out_payload` of `RustEmbeddedHal`.

Rust panics (`unimplemented!`, `assert!`) are modelled as a distinct
`panicked` outcome, separate from `Err(CodegenError)` returns, so that
"fails with a typed error" and "panics" are distinguishable propositions.
-/

namespace OpenPIDHal

/-- Four-space indentation unit, `const TAB: &str = "    "` in the source. -/
def TAB : String := "    "

/-- Logical variable descriptor (`struct Var` in the source). -/
structure Var where
  name : String
  datatype : String
  desc : Option String
deriving Repr, DecidableEq

/-- Generated fragment (`struct CodeChunk`): code text plus ordered input and
output variable lists. -/
structure CodeChunk where
  data : String
  inputs : List Var
  outputs : List Var
deriving Repr, DecidableEq

/-- `Endianness` from the openpid data model, as matched by the source. -/
inductive Endianness where
  | bigEndian
  | littleEndian
deriving Repr, DecidableEq

/-- `Signing` from the openpid data model, as matched by the source. -/
inductive Signing where
  | unsigned
  | twosComplement
  | onesComplement
deriving Repr, DecidableEq

/-- `SizedDataType` variants matched by `codegen_out_segment`. `Const` carries
its literal bytes (modelled as `Nat`s; only their count and decimal rendering
are used by the code). -/
inductive SizedDataType where
  | raw
  | const (data : List Nat)
  | integer (endianness : Endianness) (signing : Signing)
  | stringUTF8
  | floatIEEE (endianness : Endianness)
deriving Repr, DecidableEq

/-- `UnsizedDataType` variants; `codegen_out_segment` matches them but emits
nothing before panicking, so their payloads are irrelevant and omitted. -/
inductive UnsizedDataType where
  | array
  | stringUTF8
  | raw
deriving Repr, DecidableEq

/-- Termination policy of unsized segments. The source never inspects it
(the unsized branch panics first), so it is modelled as an inert token. -/
inductive Termination where
  | unmodeled
deriving Repr, DecidableEq

/-- `PacketSegment` from the openpid data model, with exactly the fields the
source destructures. -/
inductive PacketSegment where
  | sized (name : String) (bits : Nat) (datatype : SizedDataType)
      (description : Option String)
  | unsized (name : String) (datatype : UnsizedDataType)
      (termination : Termination) (description : Option String)
  | strct (name : String) (struct_name : String)
deriving Repr, DecidableEq

/-- `ReusableStruct`: name, ordered fields, optional description (the three
fields destructured at the `struct_config` match in the source). -/
structure ReusableStruct where
  name : String
  fields : List PacketSegment
  description : Option String
deriving Repr, DecidableEq

/-- `Payload`: description text and ordered segments, the two fields read by
`codegen_out_payload`. -/
structure Payload where
  description : String
  segments : List PacketSegment
deriving Repr, DecidableEq

/-- The schema (`OpenPID`) as consumed by the compiled functions: the struct
map `self.pid.structs`, modelled as an association list with unique keys
(uniqueness is the loader's responsibility per the spec). Other `OpenPID`
fields are only read by the out-of-scope scaffolding code. -/
structure OpenPID where
  structs : List (String × ReusableStruct)
deriving Repr, DecidableEq

/-- `CodegenError` variants constructed by this crate: only
`CodegenError::NoStruct { wanted_by_payload, wanted_by_field, struct_name }`
appears in the source. -/
inductive CodegenError where
  | noStruct (wanted_by_payload : String) (wanted_by_field : String)
      (struct_name : String)
deriving Repr, DecidableEq

/-- Outcome of a fallible Rust function that can also panic:
`ok` models `Ok(_)`, `err` models `Err(_)`, `panicked` models an
`unimplemented!`/`assert!` panic with its message. -/
inductive CGResult (α : Type) where
  | ok (val : α)
  | err (e : CodegenError)
  | panicked (msg : String)
deriving Repr, DecidableEq

/-- An ASCII apostrophe character, as a one-character string. -/
def apos : String := String.singleton (Char.ofNat 39)

/-- Panic message of the unsupported-integer-width branch. -/
def intWidthPanicMsg : String :=
  "Codegen for rust don" ++ apos ++ "t yet handle non-standard length integers."

/-- Panic message of the one-complement-signing branch. -/
def onesComplementPanicMsg : String :=
  "One" ++ apos ++ "s complement not yet implemented"

/-- Replace every non-overlapping occurrence of `pat` (scanning left to
right) by `rep` in a character list; `fuel` bounds the recursion and is
always instantiated with the list's length, which suffices because every
step consumes at least one character. An empty `pat` leaves the input
unchanged (the source only ever replaces the non-empty pattern `"\n"`). -/
def rsReplaceFuel (pat rep : List Char) : Nat → List Char → List Char
  | _, [] => []
  | 0, s => s
  | fuel + 1, c :: rest =>
    if pat ≠ [] ∧ pat.isPrefixOf (c :: rest) then
      rep ++ rsReplaceFuel pat rep fuel (rest.drop (pat.length - 1))
    else
      c :: rsReplaceFuel pat rep fuel rest

/-- Rust `str::replace` for a non-empty pattern: replace all
non-overlapping occurrences, left to right. -/
def rsReplace (s pat rep : String) : String :=
  String.mk (rsReplaceFuel pat.data rep.data s.data.length s.data)

/-- Split a character list at every non-overlapping occurrence of `sep`
(scanning left to right), keeping empty pieces; `acc` is the current piece
reversed, `fuel` as in `rsReplaceFuel`. -/
def rsSplitFuel (sep : List Char) : Nat → List Char → List Char → List (List Char)
  | _, acc, [] => [acc.reverse]
  | 0, acc, s => [acc.reverse ++ s]
  | fuel + 1, acc, c :: rest =>
    if sep ≠ [] ∧ sep.isPrefixOf (c :: rest) then
      acc.reverse :: rsSplitFuel sep fuel [] (rest.drop (sep.length - 1))
    else
      rsSplitFuel sep fuel (c :: acc) rest

/-- Rust `str::split` for a non-empty separator, as a list of pieces
(empty pieces preserved, as in Rust). -/
def rsSplit (s sep : String) : List String :=
  (rsSplitFuel sep.data s.data.length [] s.data).map String.mk

/-- One character of Rust `char::escape_default`: `\t`, `\r`, `\n`,
backslash, single and double quote get two-character escapes, printable
ASCII is unchanged, everything else becomes a `\u` hex escape. -/
def escape_default_char (c : Char) : String :=
  if c.toNat = 9 then "\\t"
  else if c.toNat = 13 then "\\r"
  else if c.toNat = 10 then "\\n"
  else if c.toNat = 92 then "\\\\"
  else if c.toNat = 39 then "\\" ++ String.singleton (Char.ofNat 39)
  else if c.toNat = 34 then "\\\""
  else if 32 ≤ c.toNat ∧ c.toNat ≤ 126 then String.singleton c
  else "\\u\x7b" ++ String.mk (Nat.toDigits 16 c.toNat) ++ "\x7d"

/-- Rust `str::escape_default`, applied characterwise. -/
def escape_default (s : String) : String :=
  String.join (s.data.map escape_default_char)

/-- The aggregate input pushed at the top of `codegen_out_segment` when
`struct_config` is `Some`: one `Var` named and typed after the containing
struct, carrying its description. -/
def aggInputs : Option ReusableStruct → List Var
  | some rs => [⟨rs.name, rs.name, rs.description⟩]
  | none => []

/-- The field-name text placed before input variable names when compiling
inside a struct instance: `"{name}."` for `Some`, empty for `None`. -/
def fieldPre : Option ReusableStruct → String
  | some rs => rs.name ++ "."
  | none => ""

/-- `to_be_bytes` / `to_le_bytes` selection on `Endianness`. -/
def bytesFunction : Endianness → String
  | .bigEndian => "to_be_bytes"
  | .littleEndian => "to_le_bytes"

/-- `RustEmbeddedHal::codegen_out_segment`: compiles one `PacketSegment`
into a `CodeChunk`, optionally under a containing-struct configuration.
Mirrors the source branch for branch, including its `unimplemented!` and
`assert!` panics and its struct-map lookup keyed by the segment's field
name `name` (not `struct_name`). -/
def codegen_out_segment (pid : OpenPID) (payload_name : String)
    (seg : PacketSegment) (struct_config : Option ReusableStruct) :
    CGResult CodeChunk :=
  let spacing := TAB
  let inputs0 := aggInputs struct_config
  let pre := fieldPre struct_config
  match seg with
  | .sized name bits datatype description =>
    match datatype with
    | .raw =>
      let var : Var :=
        ⟨pre ++ name,
         "&[u8; " ++ toString (if bits % 8 = 0 then bits / 8 else bits / 8 + 1)
           ++ "]",
         description⟩
      .ok ⟨spacing ++ "write(" ++ var.name ++ ")\n", inputs0 ++ [var], []⟩
    | .const data =>
      if bits ≠ data.length * 8 then
        .panicked "Not integral number of bytes for const values not yet supported"
      else
        .ok ⟨spacing ++ "// " ++ escape_default name ++ "\n"
              ++ spacing ++ "write(["
              ++ String.intercalate ", " (data.map toString) ++ "]);\n",
            inputs0, []⟩
    | .integer endianness signing =>
      if bits ≠ 8 ∧ bits ≠ 16 ∧ bits ≠ 32 ∧ bits ≠ 64 then
        .panicked intWidthPanicMsg
      else
        match signing with
        | .onesComplement => .panicked onesComplementPanicMsg
        | sg =>
          let var : Var :=
            ⟨pre ++ name,
             (match sg with | .unsigned => "u" | _ => "i") ++ toString bits,
             description⟩
          .ok ⟨spacing ++ "write(" ++ var.name ++ "."
                ++ bytesFunction endianness ++ "())\n",
              inputs0 ++ [var], []⟩
    | .stringUTF8 =>
      let var : Var := ⟨pre ++ name, "&str", description⟩
      if bits % 8 ≠ 0 then
        .panicked "assertion failed: bits % 8 == 0"
      else
        .ok ⟨spacing ++ "write(" ++ var.name ++ ".as_bytes())\n",
            inputs0 ++ [var], []⟩
    | .floatIEEE endianness =>
      if bits ≠ 32 ∧ bits ≠ 64 then
        .panicked "only IEEE 32 and 64 bit floats currently supported"
      else
        let var : Var := ⟨name, "f" ++ toString bits, description⟩
        .ok ⟨spacing ++ "write(" ++ var.name ++ "."
              ++ bytesFunction endianness ++ "())\n",
            inputs0 ++ [var], []⟩
  | .unsized _ _ _ _ =>
    .panicked "Unsized data not yet supported"
  | .strct name struct_name =>
    match pid.structs.lookup name with
    | some _ => .panicked "Struct referencing not yet supported"
    | none =>
      .err (.noStruct payload_name name struct_name)

/-- The segment loop of `codegen_out_payload`: compile each segment in
declared order with no struct configuration, indent its code under one
`TAB`, and accumulate inputs left to right. Returns the merged input list
and the accumulated `seg_writes` text. -/
def compileSegments (pid : OpenPID) (name : String) :
    List PacketSegment → CGResult (List Var × String)
  | [] => .ok ([], "")
  | seg :: rest =>
    match codegen_out_segment pid name seg none with
    | .err e => .err e
    | .panicked m => .panicked m
    | .ok chunk =>
      match compileSegments pid name rest with
      | .err e => .err e
      | .panicked m => .panicked m
      | .ok (vs, writes) =>
        .ok (chunk.inputs ++ vs,
             (TAB ++ rsReplace chunk.data "\n" ("\n" ++ TAB)) ++ writes)

/-- The documentation-line loop of `codegen_out_payload`: for each input
with a description, append one `/// * ...` entry (no separator is appended
between entries in the source); inputs with no description are skipped. -/
def inputDocs (inputs : List Var) : String :=
  String.join (inputs.map (fun input =>
    match input.desc with
    | none => ""
    | some d =>
      "/// * `" ++ input.name ++ "` - "
        ++ String.intercalate ("\n///  ")
             ((rsSplit d "\n").map escape_default)))

/-- `RustEmbeddedHal::codegen_out_payload`: compiles a whole payload into
one `CodeChunk` whose inputs are the concatenated segment inputs in
declared order, and whose text wraps the indented segment writes in a
documented `fn` skeleton. -/
def codegen_out_payload (pid : OpenPID) (name : String) (load : Payload) :
    CGResult CodeChunk :=
  match compileSegments pid name load.segments with
  | .err e => .err e
  | .panicked m => .panicked m
  | .ok (inputs, seg_writes) =>
    let input_docs := inputDocs inputs
    let docs := "/// " ++ rsReplace load.description "\n" "\n///" ++ "\n"
      ++ input_docs ++ "\n"
    let args := String.intercalate ", "
      (inputs.map (fun v => escape_default v.name ++ ": " ++ v.datatype))
    let code := "/// " ++ docs ++ "\nfn " ++ escape_default name
      ++ "(" ++ args ++ ") \x7b\n" ++ seg_writes ++ "\n\x7d\n"
    .ok ⟨code, inputs, []⟩

/-- The input list a single segment contributes when compiled at payload
level (no struct configuration); empty when compilation does not succeed. -/
def segInputs (pid : OpenPID) (pname : String) (seg : PacketSegment) :
    List Var :=
  match codegen_out_segment pid pname seg none with
  | .ok c => c.inputs
  | _ => []

/-- A schema with no reusable structs, for concrete instances. -/
def pid0 : OpenPID := ⟨[]⟩

/-- Concrete payload with segments named x, y, z, matching the ordering
example of the spec. -/
def loadC1 : Payload :=
  ⟨"set position",
   [.sized "x" 8 (.integer .bigEndian .unsigned) none,
    .sized "y" 8 .stringUTF8 none,
    .sized "z" 8 (.integer .bigEndian .unsigned) none]⟩

/-- The chunk produced for `loadC1` (dummy chunk on a non-ok outcome). -/
def chunkC1 : CodeChunk :=
  match codegen_out_payload pid0 "set_position" loadC1 with
  | .ok c => c
  | _ => ⟨"", [], []⟩

/-- An empty reusable struct named Coords. -/
def rsCoords : ReusableStruct := ⟨"Coords", [], none⟩

/-- A schema whose struct map holds exactly the struct "Coords". -/
def pidC2 : OpenPID := ⟨[("Coords", rsCoords)]⟩

/-- A containing-struct instance named "s", for field-prefixing tests. -/
def rsS : ReusableStruct := ⟨"s", [], none⟩

/-- A payload with two raw byte segments, both carrying descriptions. -/
def loadC8 : Payload :=
  ⟨"Demo payload",
   [.sized "a" 8 .raw (some "first"), .sized "b" 8 .raw (some "second")]⟩

/-- The chunk produced for a single raw byte segment (dummy chunk on a
non-ok outcome). -/
def chunkRawX : CodeChunk :=
  match codegen_out_segment pid0 "p" (.sized "x" 8 .raw none) none with
  | .ok c => c
  | _ => ⟨"", [], []⟩

theorem if_ceil8 (bits : Nat) :
    (if bits % 8 = 0 then bits / 8 else bits / 8 + 1) = (bits + 7) / 8 := by
  split <;> omega

theorem compileSegments_inputs (pid : OpenPID) (pname : String) :
    ∀ (segs : List PacketSegment) (vs : List Var) (writes : String),
      compileSegments pid pname segs = .ok (vs, writes) →
      vs = (segs.map (segInputs pid pname)).flatten := by
  intro segs
  induction segs with
  | nil =>
    intro vs writes h
    simp only [compileSegments, CGResult.ok.injEq, Prod.mk.injEq] at h
    simp [← h.1]
  | cons seg rest ih =>
    intro vs writes h
    simp only [compileSegments] at h
    cases hseg : codegen_out_segment pid pname seg none with
    | err e => rw [hseg] at h; simp at h
    | panicked m => rw [hseg] at h; simp at h
    | ok chunk =>
      rw [hseg] at h
      cases hrest : compileSegments pid pname rest with
      | err e => rw [hrest] at h; simp at h
      | panicked m => rw [hrest] at h; simp at h
      | ok pr =>
        obtain ⟨vs2, writes2⟩ := pr
        rw [hrest] at h
        simp only [CGResult.ok.injEq, Prod.mk.injEq] at h
        rw [← h.1, List.map_cons, List.flatten_cons, ih vs2 writes2 hrest]
        simp [segInputs, hseg]

/-- Claim C1: whenever `codegen_out_payload` succeeds, the compiled unit
lists as inputs exactly the concatenation of each segment contribution,
walking the segments of the payload in declared order, never reordered. -/
theorem c1_parameter_order (pid : OpenPID) (pname : String) (load : Payload)
    (c : CodeChunk) (h : codegen_out_payload pid pname load = .ok c) :
    c.inputs = (load.segments.map (segInputs pid pname)).flatten := by
  simp only [codegen_out_payload] at h
  cases hs : compileSegments pid pname load.segments with
  | err e => rw [hs] at h; simp at h
  | panicked m => rw [hs] at h; simp at h
  | ok pr =>
    obtain ⟨inputs, seg_writes⟩ := pr
    rw [hs] at h
    simp only [CGResult.ok.injEq] at h
    rw [← h]
    exact compileSegments_inputs pid pname load.segments inputs seg_writes hs

/-- Claim C1 witness: the spec example payload with segments named
x, y, z produces the parameter list exactly x, y, z in that order. -/
theorem c1_parameter_order_witness :
    codegen_out_payload pid0 "set_position" loadC1 = .ok chunkC1 ∧
    chunkC1.inputs
      = (loadC1.segments.map (segInputs pid0 "set_position")).flatten ∧
    chunkC1.inputs.map Var.name = ["x", "y", "z"] :=
  ⟨by decide,
   c1_parameter_order pid0 "set_position" loadC1 chunkC1 (by decide),
   by decide⟩

/-- Claim C2 (code bug): the struct-map lookup is keyed by the segment
field name, not by `struct_name`. With the struct "Coords" present in the
schema, a segment with field name "position" and struct name "Coords"
still fails with `NoStruct`; conversely a segment whose field name
collides with a struct key passes the lookup (and then hits the
`unimplemented` panic) even though its `struct_name` "Missing" is absent
from the schema. -/
theorem c2_struct_lookup_bug :
    codegen_out_segment pidC2 "p" (.strct "position" "Coords") none
      = .err (.noStruct "p" "position" "Coords") ∧
    codegen_out_segment pidC2 "p" (.strct "Coords" "Missing") none
      = .panicked "Struct referencing not yet supported" := by
  decide

/-- Claim C3 counterexample: an Integer segment with bits = 24 makes
`codegen_out_segment` panic (Rust `unimplemented`) instead of returning an
UnsupportedWidth `CodegenError`. -/
theorem c3_width_counterexample :
    codegen_out_segment pid0 "p"
        (.sized "x" 24 (.integer .bigEndian .unsigned) none) none
      = .panicked intWidthPanicMsg := by
  decide

/-- Claim C3 (amended): compiling a sized Integer segment whose bit width
is not in 8, 16, 32, 64 panics at schema-walk time with the unimplemented
message (so no silent truncation, but a panic rather than an
UnsupportedWidth error value); compiling one with bits = 32 succeeds. -/
theorem c3_integer_width (pid : OpenPID) (pname name : String)
    (e : Endianness) (s : Signing) (d : Option String)
    (sc : Option ReusableStruct) (bits : Nat)
    (h : ¬(bits = 8 ∨ bits = 16 ∨ bits = 32 ∨ bits = 64)) :
    codegen_out_segment pid pname (.sized name bits (.integer e s) d) sc
      = .panicked intWidthPanicMsg ∧
    codegen_out_segment pid pname (.sized name 32 (.integer e .unsigned) d) sc
      = .ok ⟨TAB ++ "write(" ++ (fieldPre sc ++ name) ++ "."
              ++ bytesFunction e ++ "())\n",
            aggInputs sc ++ [⟨fieldPre sc ++ name, "u32", d⟩], []⟩ := by
  push_neg at h
  refine ⟨?_, rfl⟩
  simp only [codegen_out_segment]
  rw [if_pos ⟨h.1, h.2.1, h.2.2.1, h.2.2.2⟩]

/-- Claim C3 witness: the amended claim at bits = 24 (panic) and the
success conclusion at bits = 32. -/
theorem c3_integer_width_witness :
    codegen_out_segment pid0 "p"
        (.sized "w" 24 (.integer .littleEndian .twosComplement) none) none
      = .panicked intWidthPanicMsg ∧
    codegen_out_segment pid0 "p"
        (.sized "w" 32 (.integer .littleEndian .unsigned) none) none
      = .ok ⟨TAB ++ "write(" ++ (fieldPre none ++ "w") ++ "."
              ++ bytesFunction .littleEndian ++ "())\n",
            aggInputs none ++ [⟨fieldPre none ++ "w", "u32", none⟩], []⟩ :=
  c3_integer_width pid0 "p" "w" .littleEndian .twosComplement none none 24
    (by decide)

/-- Claim C4 counterexample: a Const segment with bits = 16 but one
literal byte makes `codegen_out_segment` panic (Rust `unimplemented`)
instead of returning a SizeMismatch `CodegenError`. -/
theorem c4_const_counterexample :
    codegen_out_segment pid0 "p" (.sized "x" 16 (.const [0]) none) none
      = .panicked "Not integral number of bytes for const values not yet supported" := by
  decide

/-- Claim C4 (amended): a Const segment whose declared bit width differs
from 8 times its literal byte count panics at schema-walk time (a panic
rather than a SizeMismatch error value); when the widths match the segment
compiles and the emitted fragment writes exactly the literal bytes in
declared order. -/
theorem c4_const (pid : OpenPID) (pname name : String) (d : Option String)
    (sc : Option ReusableStruct) (bits : Nat) (data : List Nat) :
    (bits ≠ data.length * 8 →
      codegen_out_segment pid pname (.sized name bits (.const data) d) sc
        = .panicked "Not integral number of bytes for const values not yet supported") ∧
    (bits = data.length * 8 →
      codegen_out_segment pid pname (.sized name bits (.const data) d) sc
        = .ok ⟨TAB ++ "// " ++ escape_default name ++ "\n" ++ TAB ++ "write(["
                ++ String.intercalate ", " (data.map toString) ++ "]);\n",
              aggInputs sc, []⟩) := by
  constructor
  · intro h
    simp only [codegen_out_segment]
    rw [if_pos h]
  · intro h
    simp only [codegen_out_segment]
    rw [if_neg (by simp [h])]

/-- Claim C4 witness: the amended claim at bits = 16 with one byte
(panic) and at bits = 16 with the two bytes 171, 205 (success, bytes
emitted in order). -/
theorem c4_const_witness :
    codegen_out_segment pid0 "q" (.sized "hdr" 16 (.const [7]) none) none
      = .panicked "Not integral number of bytes for const values not yet supported" ∧
    codegen_out_segment pid0 "q" (.sized "hdr" 16 (.const [171, 205]) none) none
      = .ok ⟨"    // hdr\n    write([171, 205]);\n", [], []⟩ :=
  ⟨(c4_const pid0 "q" "hdr" none none 16 [7]).1 (by decide),
   (c4_const pid0 "q" "hdr" none none 16 [171, 205]).2 (by decide)⟩

/-- Claim C5 (code bug): under a containing struct instance "s", a
FloatIEEE field "x" produces the input Var "x" with no "s." field name
text, while an Integer field in the same position produces "s.x"; the one
aggregate Var for the struct instance is contributed in both cases. -/
theorem c5_float_missing_field_pre :
    codegen_out_segment pid0 "p"
        (.sized "x" 32 (.floatIEEE .bigEndian) none) (some rsS)
      = .ok ⟨"    write(x.to_be_bytes())\n",
            [⟨"s", "s", none⟩, ⟨"x", "f32", none⟩], []⟩ ∧
    codegen_out_segment pid0 "p"
        (.sized "x" 32 (.integer .bigEndian .unsigned) none) (some rsS)
      = .ok ⟨"    write(s.x.to_be_bytes())\n",
            [⟨"s", "s", none⟩, ⟨"s.x", "u32", none⟩], []⟩ := by
  decide

/-- Claim C6 counterexample: a sized StringUTF8 segment with bits = 12
makes `codegen_out_segment` panic (Rust `assert`) instead of returning a
NotByteAligned `CodegenError`. -/
theorem c6_string_counterexample :
    codegen_out_segment pid0 "p" (.sized "x" 12 .stringUTF8 none) none
      = .panicked "assertion failed: bits % 8 == 0" := by
  decide

/-- Claim C6 (amended): a sized StringUTF8 segment whose declared bit
width is not a multiple of 8 panics at schema-walk time on the alignment
assertion (a panic rather than a NotByteAligned error value); when bits is
a multiple of 8 it succeeds and emits a write of the UTF-8 byte encoding
of the string value. -/
theorem c6_string_alignment (pid : OpenPID) (pname name : String)
    (d : Option String) (sc : Option ReusableStruct) (bits : Nat) :
    (bits % 8 ≠ 0 →
      codegen_out_segment pid pname (.sized name bits .stringUTF8 d) sc
        = .panicked "assertion failed: bits % 8 == 0") ∧
    (bits % 8 = 0 →
      codegen_out_segment pid pname (.sized name bits .stringUTF8 d) sc
        = .ok ⟨TAB ++ "write(" ++ (fieldPre sc ++ name) ++ ".as_bytes())\n",
              aggInputs sc ++ [⟨fieldPre sc ++ name, "&str", d⟩], []⟩) := by
  constructor
  · intro h
    simp only [codegen_out_segment]
    rw [if_pos h]
  · intro h
    simp only [codegen_out_segment]
    rw [if_neg (by simp [h])]

/-- Claim C6 witness: the amended claim at bits = 12 (panic) and at
bits = 16 (success). -/
theorem c6_string_alignment_witness :
    codegen_out_segment pid0 "p" (.sized "msg" 12 .stringUTF8 none) none
      = .panicked "assertion failed: bits % 8 == 0" ∧
    codegen_out_segment pid0 "p" (.sized "msg" 16 .stringUTF8 none) none
      = .ok ⟨TAB ++ "write(" ++ (fieldPre none ++ "msg") ++ ".as_bytes())\n",
            aggInputs none ++ [⟨fieldPre none ++ "msg", "&str", none⟩], []⟩ :=
  ⟨(c6_string_alignment pid0 "p" "msg" none none 12).1 (by decide),
   (c6_string_alignment pid0 "p" "msg" none none 16).2 (by decide)⟩

/-- Claim C7: a sized Raw segment of any bit width compiles
unconditionally, and the generated input Var is typed as a byte array of
exactly the ceiling of bits over 8 bytes, which the emitted write takes. -/
theorem c7_raw_width (pid : OpenPID) (pname name : String)
    (d : Option String) (sc : Option ReusableStruct) (bits : Nat) :
    codegen_out_segment pid pname (.sized name bits .raw d) sc
      = .ok ⟨TAB ++ "write(" ++ (fieldPre sc ++ name) ++ ")\n",
            aggInputs sc
              ++ [⟨fieldPre sc ++ name,
                   "&[u8; " ++ toString ((bits + 7) / 8) ++ "]", d⟩], []⟩ := by
  simp only [codegen_out_segment]
  rw [if_ceil8]

/-- Claim C8 (code bug): with two documented inputs, the generated
documentation places both doc entries on a single text line because the
entry loop appends no newline between entries; the entry text for inputs
a and b splits into exactly one line. -/
theorem c8_doc_lines_not_separated :
    codegen_out_payload pid0 "doc_demo" loadC8
      = .ok ⟨"/// /// Demo payload\n/// * `a` - first/// * `b` - second\n\nfn doc_demo(a: &[u8; 1], b: &[u8; 1]) \x7b\n        write(a)\n            write(b)\n    \n\x7d\n",
            [⟨"a", "&[u8; 1]", some "first"⟩,
             ⟨"b", "&[u8; 1]", some "second"⟩], []⟩ ∧
    (rsSplit (inputDocs [⟨"a", "&[u8; 1]", some "first"⟩,
                         ⟨"b", "&[u8; 1]", some "second"⟩]) "\n").length
      = 1 := by
  decide

/-- Claim C9: compilation is deterministic — two runs of
`codegen_out_payload` and of `codegen_out_segment` on equal inputs yield
identical results (code text and input and output Var lists alike). -/
theorem c9_deterministic (pid pid2 : OpenPID) (n n2 : String)
    (l l2 : Payload) (seg seg2 : PacketSegment)
    (sc sc2 : Option ReusableStruct)
    (h1 : pid = pid2) (h2 : n = n2) (h3 : l = l2) (h4 : seg = seg2)
    (h5 : sc = sc2) :
    codegen_out_payload pid n l = codegen_out_payload pid2 n2 l2 ∧
    codegen_out_segment pid n seg sc = codegen_out_segment pid2 n2 seg2 sc2 := by
  subst h1 h2 h3 h4 h5
  exact ⟨rfl, rfl⟩

/-- Claim C9 witness: the determinism theorem applied at a concrete
payload and a concrete segment. -/
theorem c9_deterministic_witness :
    codegen_out_payload pid0 "set_position" loadC1
      = codegen_out_payload pid0 "set_position" loadC1 ∧
    codegen_out_segment pid0 "p" (.sized "x" 8 .raw none) none
      = codegen_out_segment pid0 "p" (.sized "x" 8 .raw none) none :=
  c9_deterministic pid0 pid0 "set_position" "set_position" loadC1 loadC1
    (.sized "x" 8 .raw none) (.sized "x" 8 .raw none) none none
    rfl rfl rfl rfl rfl

/-- Claim C10: every successfully produced CodeChunk, from segment
compilation and from payload compilation alike, has an empty outputs
list. -/
theorem c10_no_outputs (pid : OpenPID) (pname : String) :
    (∀ (seg : PacketSegment) (sc : Option ReusableStruct) (c : CodeChunk),
      codegen_out_segment pid pname seg sc = .ok c → c.outputs = []) ∧
    (∀ (n : String) (load : Payload) (c : CodeChunk),
      codegen_out_payload pid n load = .ok c → c.outputs = []) := by
  constructor
  · intro seg sc c h
    rcases seg with ⟨nm, bits, dt, ds⟩ | ⟨nm, dt, t, ds⟩ | ⟨nm, sn⟩
    · rcases dt with _ | ⟨data⟩ | ⟨e, s⟩ | _ | ⟨e⟩ <;>
        simp only [codegen_out_segment] at h <;>
        (repeat' split at h) <;>
        first
          | (simp only [CGResult.ok.injEq] at h
             subst h
             rfl)
          | simp at h
    · simp only [codegen_out_segment] at h
      simp at h
    · simp only [codegen_out_segment] at h
      split at h <;> simp at h
  · intro n load c h
    simp only [codegen_out_payload] at h
    cases hs : compileSegments pid n load.segments with
    | err e => rw [hs] at h; simp at h
    | panicked m => rw [hs] at h; simp at h
    | ok pr =>
      obtain ⟨inputs, seg_writes⟩ := pr
      rw [hs] at h
      simp only [CGResult.ok.injEq] at h
      rw [← h]

/-- Claim C10 witness: the no-outputs theorem applied to a concrete raw
segment and a concrete payload. -/
theorem c10_no_outputs_witness :
    (codegen_out_segment pid0 "p" (.sized "x" 8 .raw none) none
       = .ok chunkRawX ∧ chunkRawX.outputs = []) ∧
    (codegen_out_payload pid0 "set_position" loadC1
       = .ok chunkC1 ∧ chunkC1.outputs = []) :=
  ⟨⟨by decide,
    (c10_no_outputs pid0 "p").1 (.sized "x" 8 .raw none) none chunkRawX
      (by decide)⟩,
   ⟨by decide,
    (c10_no_outputs pid0 "p").2 "set_position" loadC1 chunkC1 (by decide)⟩⟩

end OpenPIDHal
